import Mathlib

/-!
Shallow embedding of the `lua-config` crate (`src/lib.rs`).

Modelling conventions:
- `std::collections::HashMap<String, V>` is modelled as an association list
  `List (String × V)` with unique keys; `assoc_get` models `HashMap::get`
  (it returns the first binding of a key).  Iteration order of a `HashMap`
  is unspecified in Rust, so the list order stands for one arbitrary but
  fixed iteration order.
- `f64` is modelled by `F64`: a finite rational, NaN, or one of the two
  infinities.  A Rust `as` cast from `f64` to an integer type saturates at
  the target bounds, maps NaN to 0 and truncates finite values toward zero;
  `f64_as_int` implements exactly that on the model.  (The conversion of an
  `i64` to `f64` is modelled exactly, ignoring rounding of integers larger
  than 2^53, which no claim touches.)
- Lua strings may hold bytes that are not valid UTF-8; `LuaStr` carries
  either valid text or an invalid byte sequence, and `LuaStr.to_str_or_empty`
  models `s.to_str().unwrap_or_default()`.
- The embedded interpreter (`rlua`) is external: the outcome of loading the
  source and calling the entry-point function is abstracted by
  `CallOutcome`, and the remote HTTP fetch inside `fetch_data` by
  `FetchOutcome`.  Everything downstream of those outcomes is translated
  from the source.
-/

namespace LuaCfg

/-- Model of a Rust `f64`: a finite rational number, NaN, or an infinity. -/
inductive F64 where
  | finite (q : ℚ)
  | nan
  | inf
  | neginf
deriving DecidableEq, Repr

/-- Truncation of a rational toward zero, the rounding used by Rust `as`
casts from `f64` to integer types. -/
def rat_trunc (q : ℚ) : Int := q.num.tdiv q.den

/-- Semantics of a Rust `as` cast from `f64` to an integer type with range
`lo..=hi`: NaN goes to 0, infinities and out-of-range finite values saturate
at the bounds, in-range finite values are truncated toward zero. -/
def f64_as_int (lo hi : Int) : F64 → Int
  | F64.nan => 0
  | F64.inf => hi
  | F64.neginf => lo
  | F64.finite q =>
      if rat_trunc q < lo then lo
      else if hi < rat_trunc q then hi
      else rat_trunc q

/-- Lower bound of Rust `i32`. -/
def i32_min : Int := -(2 ^ 31)

/-- Upper bound of Rust `i32`. -/
def i32_max : Int := 2 ^ 31 - 1

/-- Lower bound of Rust `i64`. -/
def i64_min : Int := -(2 ^ 63)

/-- Upper bound of Rust `i64`. -/
def i64_max : Int := 2 ^ 63 - 1

/-- Model of an `rlua` string: either valid text or a byte sequence that is
not valid UTF-8. -/
inductive LuaStr where
  | valid (s : String)
  | invalid
deriving DecidableEq, Repr

/-- Model of `s.to_str().unwrap_or_default()`: invalid text collapses to the
empty string. -/
def LuaStr.to_str_or_empty : LuaStr → String
  | LuaStr.valid s => s
  | LuaStr.invalid => ""

/-- The closed value type `LuaType` of `src/lib.rs` (lines 4-12). -/
inductive LuaType where
  | Nil
  | Boolean (b : Bool)
  | Integer (n : Int)
  | Number (x : F64)
  | String (s : String)
  | Table (entries : List (String × LuaType))
deriving Repr

/-- Model of the supported variants of `rlua::Value` (the interpreter's
dynamic value type), after coercion of table keys to strings. -/
inductive RValue where
  | nil
  | boolean (b : Bool)
  | integer (n : Int)
  | number (x : F64)
  | str (s : LuaStr)
  | table (entries : List (String × RValue))
deriving Repr

/-- Model of `HashMap::get` on the association-list representation. -/
def assoc_get {α : Type} (m : List (String × α)) (k : String) : Option α :=
  match m with
  | [] => none
  | (k2, v) :: rest => if k2 = k then some v else assoc_get rest k

/-- The `LuaConvert` impl for `i32` (lines 27-35): `i32::try_from` on an
Integer (range-checked), an `as i32` cast on a Number, `None` otherwise. -/
def from_lua_type_i32 : LuaType → Option Int
  | LuaType.Integer i => if i32_min ≤ i ∧ i ≤ i32_max then some i else none
  | LuaType.Number n => some (f64_as_int i32_min i32_max n)
  | _ => none

/-- The `LuaConvert` impl for `i64` (lines 37-45): an Integer passes through,
a Number is cast with `as i64`, `None` otherwise. -/
def from_lua_type_i64 : LuaType → Option Int
  | LuaType.Integer i => some i
  | LuaType.Number n => some (f64_as_int i64_min i64_max n)
  | _ => none

/-- The `LuaConvert` impl for `f64` (lines 47-55): a Number passes through,
an Integer is cast to float, `None` otherwise. -/
def from_lua_type_f64 : LuaType → Option F64
  | LuaType.Number n => some n
  | LuaType.Integer i => some (F64.finite (i : ℚ))
  | _ => none

/-- The `LuaConvert` impl for `bool` (lines 57-65). -/
def from_lua_type_bool : LuaType → Option Bool
  | LuaType.Boolean b => some b
  | _ => none

/-- The `LuaConvert` impl for `String` (lines 67-75). -/
def from_lua_type_string : LuaType → Option String
  | LuaType.String s => some s
  | _ => none

/-- The `LuaConvert` impl for `HashMap<String, LuaType>` (lines 77-85): a
shallow copy of the table's mapping. -/
def from_lua_type_table : LuaType → Option (List (String × LuaType))
  | LuaType.Table m => some m
  | _ => none

/-- Stand-in for Rust's `Display` rendering of an `f64` (used by the
`write!(f, "Number({})", n)` arm).  NaN and the infinities render as in
Rust; the exact decimal formatting of finite values is outside the rational
model and is abstracted by a numerator/denominator rendering.  No claim
constrains this text. -/
def f64_display : F64 → String
  | F64.nan => "NaN"
  | F64.inf => "inf"
  | F64.neginf => "-inf"
  | F64.finite q =>
      if q.den = 1 then toString q.num else toString q.num ++ "/" ++ toString q.den

/-- A run of `n` spaces, as produced by `" ".repeat(n)`. -/
def spaces (n : Nat) : String := String.mk (List.replicate n ' ')

/-- Concatenation of a list of strings. -/
def concat_all : List String → String
  | [] => ""
  | s :: rest => s ++ concat_all rest

mutual

/-- The pretty-printer `print_lua_type` (lines 87-103), producing the text
that the `write!` calls emit on the formatter. -/
def print_lua_type : LuaType → Nat → String
  | LuaType.Nil, _ => "nil"
  | LuaType.Boolean b, _ => "Boolean(" ++ toString b ++ ")"
  | LuaType.Integer n, _ => "Integer(" ++ toString n ++ ")"
  | LuaType.Number x, _ => "Number(" ++ f64_display x ++ ")"
  | LuaType.String s, _ => "String(\"" ++ s ++ "\")"
  | LuaType.Table m, depth =>
      "\x7b" ++ print_entries m depth ++ "\n" ++ spaces ((depth - 1) * 4) ++ "\x7d"

/-- The body of the `for (key, value) in map.iter()` loop inside
`print_lua_type`: one `\n<indent>key = ` prefix per entry, then the entry's
value printed one level deeper. -/
def print_entries : List (String × LuaType) → Nat → String
  | [], _ => ""
  | (key, value) :: rest, depth =>
      "\n" ++ spaces (depth * 4) ++ key ++ " = " ++ print_lua_type value (depth + 1)
        ++ print_entries rest depth

end

/-- The `Display` impl for `LuaType` (lines 105-109): printing starts at
depth 1. -/
def display_lua_type (v : LuaType) : String := print_lua_type v 1

mutual

/-- The recursive lowering `value_to_lua_type` (lines 301-319) from the
interpreter's dynamic values to `LuaType`. -/
def value_to_lua_type : RValue → LuaType
  | RValue.nil => LuaType.Nil
  | RValue.boolean b => LuaType.Boolean b
  | RValue.integer n => LuaType.Integer n
  | RValue.number x => LuaType.Number x
  | RValue.str s => LuaType.String s.to_str_or_empty
  | RValue.table m => LuaType.Table (lower_entries m)

/-- The loop over `table.clone().pairs()` inside `value_to_lua_type`:
element-wise lowering of the (string-keyed) snapshot of the table. -/
def lower_entries : List (String × RValue) → List (String × LuaType)
  | [] => []
  | (k, v) :: rest => (k, value_to_lua_type v) :: lower_entries rest

end

/-- The helper `convert_map` (lines 321-330): lower every value of the
mapping, keeping its keys. -/
def convert_map (lua_map : List (String × RValue)) : List (String × LuaType) :=
  lower_entries lua_map

/-- Outcome of loading a source text and calling a named global function in
the embedded interpreter; abstracts lines 270-286 (everything `rlua` does
before the table is inspected).  `ok table` carries the returned table as a
string-keyed snapshot. -/
inductive CallOutcome where
  | loadErr (e : String)
  | missingFn (e : String)
  | callErr (e : String)
  | ok (table : List (String × RValue))

/-- The function `get_hashmap_by_function` (lines 265-299), with the
interpreter abstracted by a `CallOutcome`: load/function-lookup/call errors
are propagated (with the formatting of lines 278 and 284), an empty returned
table is rejected (lines 288-290), otherwise the table's pairs are
collected. -/
def get_hashmap_by_function (outcome : CallOutcome) (function_name : String) :
    Except String (List (String × RValue)) :=
  match outcome with
  | CallOutcome.loadErr e => Except.error e
  | CallOutcome.missingFn e =>
      Except.error ("Error getting function " ++ function_name ++ ": " ++ e)
  | CallOutcome.callErr e =>
      Except.error ("Error calling function " ++ function_name ++ ": " ++ e)
  | CallOutcome.ok table =>
      if table.isEmpty then
        Except.error ("Function " ++ function_name ++ " returned an empty table")
      else
        Except.ok table

/-- The `LuaConfig` struct (lines 111-115). -/
structure LuaConfig where
  data : List (String × LuaType)
  config : String
  default : Option String

/-- The constructor `from_string` (lines 118-124). -/
def LuaConfig.from_string (file : String) : LuaConfig :=
  { data := [], config := file, default := none }

/-- The reconciliation loop of `execute` (lines 157-167): for every key of
the default mapping, take the config mapping's value when it has one, else
the default's value. -/
def reconcile (config_values default_values : List (String × RValue)) :
    List (String × RValue) :=
  default_values.map (fun kv =>
    match assoc_get config_values kv.1 with
    | some conf_value => (kv.1, conf_value)
    | none => kv)

/-- The method `execute` (lines 136-175), with the two interpreter calls
abstracted by the `CallOutcome` arguments: evaluate "Config"; if a default
source is attached, evaluate "Default", reject the first config key missing
from the defaults (lines 149-155), reconcile and lower; otherwise lower the
config mapping verbatim. -/
def execute (cfg : LuaConfig) (configOutcome defaultOutcome : CallOutcome) :
    Except String LuaConfig :=
  match get_hashmap_by_function configOutcome "Config" with
  | Except.error e => Except.error e
  | Except.ok config_values =>
    match cfg.default with
    | some _ =>
      match get_hashmap_by_function defaultOutcome "Default" with
      | Except.error e => Except.error e
      | Except.ok default_values =>
        match config_values.find? (fun kv => !(assoc_get default_values kv.1).isSome) with
        | some kv =>
            Except.error ("Config value \"" ++ kv.1 ++ "\" is not in the default values")
        | none =>
            Except.ok { cfg with data := convert_map (reconcile config_values default_values) }
    | none => Except.ok { cfg with data := convert_map config_values }

/-- The path walk of `get_lua_type` (lines 188-204): follow each segment
through nested tables; a missing key or a non-table intermediate value
returns `none`; when the loop over the segments ends, `none` is returned
(line 203). -/
def get_lua_type_walk : List (String × LuaType) → List String → Option LuaType
  | _, [] => none
  | mp, k :: ks =>
    match assoc_get mp k with
    | some (LuaType.Table m) => get_lua_type_walk m ks
    | some _ => none
    | none => none

/-- The method `get_lua_type` (lines 188-204): split the key on `/` and walk
the data mapping. -/
def get_lua_type (cfg : LuaConfig) (key : String) : Option LuaType :=
  get_lua_type_walk cfg.data (key.splitOn "/")

/-- The method `get` (lines 177-186), parametrised by the `LuaConvert`
instance of the target type. -/
def get {T : Type} (from_lua : LuaType → Option T) (cfg : LuaConfig) (key : String) :
    Option T :=
  match get_lua_type cfg key with
  | some value => from_lua value
  | none => none

/-- The `Display` impl for `LuaConfig` (lines 333-340): one
`key = value\n` line per top-level entry. -/
def display_lua_config (cfg : LuaConfig) : String :=
  concat_all (cfg.data.map (fun kv => kv.1 ++ " = " ++ display_lua_type kv.2 ++ "\n"))

/-- Outcome of the blocking HTTP fetch plus body read inside the
`fetch_data` host function (lines 209-213); abstracts `reqwest`. -/
inductive FetchOutcome where
  | httpErr (e : String)
  | bodyErr (e : String)
  | okBody (body : String)

/-- Result of invoking a host function from the interpreter: a Rust panic
(which `rlua` resumes on the host side, it is not turned into a Lua error),
a successfully returned value, or a recoverable interpreter error. -/
inductive HostCallResult where
  | panicked (msg : String)
  | ok (t : RValue)
  | luaError (e : String)
deriving Repr

/-- Discriminator for the recoverable-interpreter-error case. -/
def HostCallResult.is_lua_error : HostCallResult → Bool
  | HostCallResult.luaError _ => true
  | _ => false

/-- The body of the `fetch_data` closure registered by
`declare_lua_functions` (lines 209-214): an HTTP failure panics via
`.expect("Failed to fetch data")`, an unreadable body panics via
`.unwrap()` (its panic message, derived from the error, is carried
abstractly), and a failing JSON-to-table conversion panics via
`.expect("Failed to convert JSON to Lua table")`; only a successful fetch
and conversion returns a value to the script.  `json_to_table` abstracts
`lua_table_from_json`. -/
def fetch_data_host (json_to_table : String → Except String RValue) :
    FetchOutcome → HostCallResult
  | FetchOutcome.httpErr _ => HostCallResult.panicked "Failed to fetch data"
  | FetchOutcome.bodyErr e => HostCallResult.panicked e
  | FetchOutcome.okBody body =>
      match json_to_table body with
      | Except.error _ => HostCallResult.panicked "Failed to convert JSON to Lua table"
      | Except.ok t => HostCallResult.ok t

/-! Helper lemmas about the association-list model. -/

theorem lower_entries_eq_map (m : List (String × RValue)) :
    lower_entries m = m.map (fun kv => (kv.1, value_to_lua_type kv.2)) := by
  induction m with
  | nil => rfl
  | cons kv rest ih => cases kv; simp [lower_entries, ih]

theorem convert_map_eq_map (m : List (String × RValue)) :
    convert_map m = m.map (fun kv => (kv.1, value_to_lua_type kv.2)) :=
  lower_entries_eq_map m

theorem convert_map_assoc_get (m : List (String × RValue)) (k : String) :
    assoc_get (convert_map m) k = (assoc_get m k).map value_to_lua_type := by
  induction m with
  | nil => rfl
  | cons kv rest ih =>
    obtain ⟨k2, v2⟩ := kv
    by_cases h : k2 = k <;>
      simp [convert_map, lower_entries, assoc_get, h] <;>
      simpa [convert_map] using ih

theorem convert_map_keys (m : List (String × RValue)) :
    (convert_map m).map Prod.fst = m.map Prod.fst := by
  rw [convert_map_eq_map, List.map_map]
  rfl

theorem reconcile_assoc_get (cm dm : List (String × RValue)) (k : String) :
    assoc_get (reconcile cm dm) k =
      (assoc_get dm k).map (fun v => (assoc_get cm k).getD v) := by
  induction dm with
  | nil => rfl
  | cons kv rest ih =>
    obtain ⟨k2, v2⟩ := kv
    by_cases h : k2 = k
    · subst h
      cases hc : assoc_get cm k2 <;> simp [reconcile, assoc_get, hc]
    · cases hc : assoc_get cm k2 <;>
        simp [reconcile, assoc_get, hc, h] <;>
        simpa [reconcile] using ih

theorem reconcile_keys (cm dm : List (String × RValue)) :
    (reconcile cm dm).map Prod.fst = dm.map Prod.fst := by
  induction dm with
  | nil => rfl
  | cons kv rest ih =>
    obtain ⟨k2, v2⟩ := kv
    cases hc : assoc_get cm k2 <;> simp [reconcile, hc] <;> simpa [reconcile] using ih

theorem assoc_get_isSome_of_mem {α : Type} {m : List (String × α)} {kv : String × α}
    (h : kv ∈ m) : (assoc_get m kv.1).isSome = true := by
  induction m with
  | nil => cases h
  | cons kv2 rest ih =>
    obtain ⟨k2, v2⟩ := kv2
    rcases List.mem_cons.mp h with heq | hmem
    · subst heq; simp [assoc_get]
    · by_cases hk : k2 = kv.1 <;> simp [assoc_get, hk, ih hmem]

theorem exists_mem_of_assoc_get_some {α : Type} {m : List (String × α)} {k : String}
    {v : α} (h : assoc_get m k = some v) : ∃ kv, kv ∈ m ∧ kv.1 = k := by
  induction m with
  | nil => cases h
  | cons kv2 rest ih =>
    obtain ⟨k2, v2⟩ := kv2
    by_cases hk : k2 = k
    · exact ⟨(k2, v2), List.mem_cons_self _ _, hk⟩
    · simp only [assoc_get, hk, if_false] at h
      obtain ⟨kv, hmem, hfst⟩ := ih h
      exact ⟨kv, List.mem_cons_of_mem _ hmem, hfst⟩

theorem get_lua_type_walk_eq_none (mp : List (String × LuaType)) (ks : List String) :
    get_lua_type_walk mp ks = none := by
  induction ks generalizing mp with
  | nil => rfl
  | cons k rest ih =>
    unfold get_lua_type_walk
    cases assoc_get mp k with
    | none => rfl
    | some v => cases v <;> simp [ih]

theorem print_entries_eq_concat (m : List (String × LuaType)) (d : Nat) :
    print_entries m d = concat_all (m.map (fun kv =>
      "\n" ++ spaces (d * 4) ++ kv.1 ++ " = " ++ print_lua_type kv.2 (d + 1))) := by
  induction m with
  | nil => rfl
  | cons kv rest ih => cases kv; simp [print_entries, concat_all, ih]

/-- C3: with no default source attached, `execute` succeeds whenever the
Config evaluation does, and stores exactly the element-wise lowering of the
Config mapping, key-for-key and value-for-value, with no validation of its
keys. -/
theorem execute_no_default (cfg : LuaConfig) (co do2 : CallOutcome)
    (cm : List (String × RValue))
    (hdef : cfg.default = none)
    (hc : get_hashmap_by_function co "Config" = Except.ok cm) :
    execute cfg co do2 =
      Except.ok { cfg with data := cm.map (fun kv => (kv.1, value_to_lua_type kv.2)) } := by
  have h1 : execute cfg co do2 = Except.ok { cfg with data := convert_map cm } := by
    unfold execute
    rw [hc, hdef]
  rw [h1, convert_map_eq_map]

/-- Witness for C3 at a concrete loader and Config table. -/
theorem execute_no_default_witness :
    execute { data := [], config := "c", default := none }
        (CallOutcome.ok [("a", RValue.integer 1)]) (CallOutcome.ok []) =
      Except.ok { data := [("a", LuaType.Integer 1)], config := "c", default := none } :=
  execute_no_default _ _ _ [("a", RValue.integer 1)] rfl rfl

/-- C4: the path walk of `get_lua_type` never returns a value — for every
loader and every path it returns `none`, and therefore `get` returns `none`
for every target type's converter. -/
theorem path_queries_always_miss :
    (∀ (cfg : LuaConfig) (key : String), get_lua_type cfg key = none) ∧
    (∀ (T : Type) (from_lua : LuaType → Option T) (cfg : LuaConfig) (key : String),
      get from_lua cfg key = none) := by
  have h : ∀ (cfg : LuaConfig) (key : String), get_lua_type cfg key = none :=
    fun cfg key => get_lua_type_walk_eq_none cfg.data (key.splitOn "/")
  refine ⟨h, fun T from_lua cfg key => ?_⟩
  unfold get
  rw [h cfg key]

/-- C5: an entry point returning a table with zero entries makes
`get_hashmap_by_function` fail with an error naming the function, so
`execute` fails both when "Config" returns an empty table and when a
default source is attached and "Default" returns an empty table. -/
theorem empty_table_errors :
    (∀ fname : String, get_hashmap_by_function (CallOutcome.ok []) fname =
        Except.error ("Function " ++ fname ++ " returned an empty table"))
  ∧ (∀ (cfg : LuaConfig) (do2 : CallOutcome), execute cfg (CallOutcome.ok []) do2 =
        Except.error "Function Config returned an empty table")
  ∧ (∀ (cfg : LuaConfig) (dsrc : String) (co : CallOutcome)
        (cm : List (String × RValue)), cfg.default = some dsrc →
        get_hashmap_by_function co "Config" = Except.ok cm →
        execute cfg co (CallOutcome.ok []) =
          Except.error "Function Default returned an empty table") := by
  refine ⟨fun fname => rfl, fun cfg do2 => rfl, fun cfg dsrc co cm hdef hc => ?_⟩
  unfold execute
  rw [hc, hdef]
  rfl

/-- Witness for C5: a loader with a default attached whose Config evaluation
succeeds but whose Default entry point returns an empty table. -/
theorem empty_table_errors_witness :
    execute { data := [], config := "c", default := some "d" }
        (CallOutcome.ok [("a", RValue.nil)]) (CallOutcome.ok []) =
      Except.error "Function Default returned an empty table" :=
  empty_table_errors.2.2 _ "d" _ [("a", RValue.nil)] rfl rfl

/-- C7: `value_to_lua_type` lowers each supported interpreter value kind
one-to-one onto `LuaType` — nil to Nil, boolean to Boolean, integer to
Integer, float to Number, string to String (a string with invalid text
encoding collapses to the empty string), and a table to Table by recursively
lowering every key/value pair of its snapshot. -/
theorem value_lowering_rules :
    value_to_lua_type RValue.nil = LuaType.Nil
  ∧ (∀ b, value_to_lua_type (RValue.boolean b) = LuaType.Boolean b)
  ∧ (∀ n, value_to_lua_type (RValue.integer n) = LuaType.Integer n)
  ∧ (∀ x, value_to_lua_type (RValue.number x) = LuaType.Number x)
  ∧ (∀ s, value_to_lua_type (RValue.str (LuaStr.valid s)) = LuaType.String s)
  ∧ value_to_lua_type (RValue.str LuaStr.invalid) = LuaType.String ""
  ∧ (∀ m, value_to_lua_type (RValue.table m) =
      LuaType.Table (m.map (fun kv => (kv.1, value_to_lua_type kv.2)))) := by
  refine ⟨rfl, fun b => rfl, fun n => rfl, fun x => rfl, fun s => rfl, rfl, fun m => ?_⟩
  rw [value_to_lua_type, lower_entries_eq_map]

/-- C8: the pretty-printer renders Nil as `nil`, scalars as `Kind(value)`
with the string variant quoted, and a table as a brace block with one line
per entry indented by 4 spaces times the current depth and the closing brace
indented by 4 spaces times (depth - 1); display starts at depth 1, so the
top-level closing brace has zero indentation, as the concrete rendering of
the mapping with x = 1 and y = (z = "s") shows. -/
theorem pretty_print_rules :
    (∀ d, print_lua_type LuaType.Nil d = "nil")
  ∧ (∀ b d, print_lua_type (LuaType.Boolean b) d = "Boolean(" ++ toString b ++ ")")
  ∧ (∀ n d, print_lua_type (LuaType.Integer n) d = "Integer(" ++ toString n ++ ")")
  ∧ (∀ x d, print_lua_type (LuaType.Number x) d = "Number(" ++ f64_display x ++ ")")
  ∧ (∀ s d, print_lua_type (LuaType.String s) d = "String(\"" ++ s ++ "\")")
  ∧ (∀ m d, print_lua_type (LuaType.Table m) d =
      "\x7b" ++ concat_all (m.map (fun kv =>
        "\n" ++ spaces (d * 4) ++ kv.1 ++ " = " ++ print_lua_type kv.2 (d + 1)))
      ++ "\n" ++ spaces ((d - 1) * 4) ++ "\x7d")
  ∧ (∀ v, display_lua_type v = print_lua_type v 1)
  ∧ display_lua_config
      { data := [("x", LuaType.Integer 1), ("y", LuaType.Table [("z", LuaType.String "s")])],
        config := "", default := none } =
      "x = Integer(1)\ny = \x7b\n    z = String(\"s\")\n\x7d\n" := by
  refine ⟨fun d => rfl, fun b d => rfl, fun n d => rfl, fun x d => rfl, fun s d => rfl,
    fun m d => ?_, fun v => rfl, rfl⟩
  rw [print_lua_type, print_entries_eq_concat]

/-- C1: with a default source attached and both entry-point evaluations
succeeding, if every Config key is present in the Default mapping then
`execute` succeeds, the stored data has exactly the Default mapping's keys,
keys present in both map to the lowering of Config's value, and keys present
only in Default map to the lowering of Default's value. -/
theorem execute_merge_correct (cfg : LuaConfig) (dsrc : String)
    (co do2 : CallOutcome) (cm dm : List (String × RValue))
    (hdef : cfg.default = some dsrc)
    (hc : get_hashmap_by_function co "Config" = Except.ok cm)
    (hd : get_hashmap_by_function do2 "Default" = Except.ok dm)
    (hsub : cm.all (fun kv => (assoc_get dm kv.1).isSome) = true) :
    ∃ cfg2, execute cfg co do2 = Except.ok cfg2
      ∧ cfg2.data.map Prod.fst = dm.map Prod.fst
      ∧ (∀ k, (assoc_get cfg2.data k).isSome = (assoc_get dm k).isSome)
      ∧ (∀ k cv, assoc_get cm k = some cv →
          assoc_get cfg2.data k = some (value_to_lua_type cv))
      ∧ (∀ k dv, assoc_get cm k = none → assoc_get dm k = some dv →
          assoc_get cfg2.data k = some (value_to_lua_type dv)) := by
  have hfind : cm.find? (fun kv => !(assoc_get dm kv.1).isSome) = none := by
    rw [List.find?_eq_none]
    intro kv hkv
    have hs := List.all_eq_true.mp hsub kv hkv
    simp only [hs, Bool.not_true, Bool.false_eq_true, not_false_eq_true]
  refine ⟨{ cfg with data := convert_map (reconcile cm dm) }, ?_, ?_, ?_, ?_, ?_⟩
  · unfold execute
    rw [hc, hdef, hd]
    dsimp only
    rw [hfind]
  · rw [convert_map_keys, reconcile_keys]
  · intro k
    rw [convert_map_assoc_get, reconcile_assoc_get]
    cases assoc_get dm k <;> rfl
  · intro k cv hcv
    obtain ⟨kv, hmem, hfst⟩ := exists_mem_of_assoc_get_some hcv
    have hs := List.all_eq_true.mp hsub kv hmem
    rw [hfst] at hs
    obtain ⟨dv, hdv⟩ := Option.isSome_iff_exists.mp hs
    rw [convert_map_assoc_get, reconcile_assoc_get, hdv, hcv]
    rfl
  · intro k dv hnone hdv
    rw [convert_map_assoc_get, reconcile_assoc_get, hdv, hnone]
    rfl

/-- Witness for C1: Config overrides the key a, Default supplies the key b. -/
theorem execute_merge_correct_witness :
    ∃ cfg2,
      execute { data := [], config := "c", default := some "d" }
          (CallOutcome.ok [("a", RValue.integer 1)])
          (CallOutcome.ok [("a", RValue.integer 2), ("b", RValue.str (LuaStr.valid "x"))])
        = Except.ok cfg2
      ∧ assoc_get cfg2.data "a" = some (LuaType.Integer 1)
      ∧ assoc_get cfg2.data "b" = some (LuaType.String "x") := by
  obtain ⟨cfg2, hok, -, -, hboth, honly⟩ :=
    execute_merge_correct { data := [], config := "c", default := some "d" } "d"
      (CallOutcome.ok [("a", RValue.integer 1)])
      (CallOutcome.ok [("a", RValue.integer 2), ("b", RValue.str (LuaStr.valid "x"))])
      [("a", RValue.integer 1)]
      [("a", RValue.integer 2), ("b", RValue.str (LuaStr.valid "x"))]
      rfl rfl rfl (by decide)
  exact ⟨cfg2, hok, hboth "a" (RValue.integer 1) rfl,
    honly "b" (RValue.str (LuaStr.valid "x")) rfl rfl⟩

/-- C2: with a default source attached and both entry-point evaluations
succeeding, a Config key absent from the Default mapping makes `execute`
fail with an error message naming that key, and no data is produced. -/
theorem execute_unknown_key (cfg : LuaConfig) (dsrc : String)
    (co do2 : CallOutcome) (cm dm : List (String × RValue))
    (hdef : cfg.default = some dsrc)
    (hc : get_hashmap_by_function co "Config" = Except.ok cm)
    (hd : get_hashmap_by_function do2 "Default" = Except.ok dm)
    (hbad : cm.any (fun kv => !(assoc_get dm kv.1).isSome) = true) :
    ∃ k, (assoc_get cm k).isSome = true ∧ assoc_get dm k = none ∧
      execute cfg co do2 =
        Except.error ("Config value \"" ++ k ++ "\" is not in the default values") := by
  have hfind : (cm.find? (fun kv => !(assoc_get dm kv.1).isSome)).isSome = true := by
    rw [List.find?_isSome]
    obtain ⟨kv, hmem, hkv⟩ := List.any_eq_true.mp hbad
    exact ⟨kv, hmem, hkv⟩
  obtain ⟨kv, hkv⟩ := Option.isSome_iff_exists.mp hfind
  have hmem := List.mem_of_find?_eq_some hkv
  have hp := List.find?_some hkv
  refine ⟨kv.1, assoc_get_isSome_of_mem hmem, ?_, ?_⟩
  · rw [Bool.not_eq_eq_eq_not, Bool.not_true] at hp
    exact Option.not_isSome_iff_eq_none.mp (by simp [hp])
  · unfold execute
    rw [hc, hdef, hd]
    dsimp only
    rw [hkv]

/-- Witness for C2: Config has the key extra, Default only declares a. -/
theorem execute_unknown_key_witness :
    ∃ k, (assoc_get [("extra", RValue.nil)] k).isSome = true
      ∧ assoc_get [("a", RValue.nil)] k = none
      ∧ execute { data := [], config := "c", default := some "d" }
          (CallOutcome.ok [("extra", RValue.nil)]) (CallOutcome.ok [("a", RValue.nil)]) =
          Except.error ("Config value \"" ++ k ++ "\" is not in the default values") :=
  execute_unknown_key { data := [], config := "c", default := some "d" } "d"
    (CallOutcome.ok [("extra", RValue.nil)]) (CallOutcome.ok [("a", RValue.nil)])
    [("extra", RValue.nil)] [("a", RValue.nil)] rfl rfl rfl (by decide)

/-- C6: the typed-extraction rules of the `LuaConvert` impls — an Integer
converts to i32 exactly when it fits the i32 range (no truncation on
overflow), a Number converts to i32 and i64 by truncation toward zero
(3.9 gives 3, -3.9 gives -3), an Integer passes through to i64 unchanged
(42 gives 42) and converts exactly to f64 (42 gives 42.0), a Number passes
through to f64, bool/String/table succeed only from the Boolean/String/Table
variants (the table as a shallow copy), and every other source/target
mismatch gives no value (an Integer as boolean is absent). -/
theorem lua_convert_rules :
    (∀ i : Int, i32_min ≤ i → i ≤ i32_max →
        from_lua_type_i32 (LuaType.Integer i) = some i)
  ∧ (∀ i : Int, i < i32_min ∨ i32_max < i →
        from_lua_type_i32 (LuaType.Integer i) = none)
  ∧ from_lua_type_i32 (LuaType.Number (F64.finite (mkRat 39 10))) = some 3
  ∧ (∀ i : Int, from_lua_type_i64 (LuaType.Integer i) = some i)
  ∧ from_lua_type_i64 (LuaType.Integer 42) = some 42
  ∧ from_lua_type_i64 (LuaType.Number (F64.finite (mkRat (-39) 10))) = some (-3)
  ∧ (∀ x : F64, from_lua_type_f64 (LuaType.Number x) = some x)
  ∧ (∀ i : Int, from_lua_type_f64 (LuaType.Integer i) = some (F64.finite (i : ℚ)))
  ∧ from_lua_type_f64 (LuaType.Integer 42) = some (F64.finite 42)
  ∧ (∀ b, from_lua_type_bool (LuaType.Boolean b) = some b)
  ∧ (∀ s, from_lua_type_string (LuaType.String s) = some s)
  ∧ (∀ m, from_lua_type_table (LuaType.Table m) = some m)
  ∧ from_lua_type_bool (LuaType.Integer 42) = none
  ∧ (∀ v, (∀ b, v ≠ LuaType.Boolean b) → from_lua_type_bool v = none)
  ∧ (∀ v, (∀ s, v ≠ LuaType.String s) → from_lua_type_string v = none)
  ∧ (∀ v, (∀ m, v ≠ LuaType.Table m) → from_lua_type_table v = none)
  ∧ (∀ v, (∀ i, v ≠ LuaType.Integer i) → (∀ x, v ≠ LuaType.Number x) →
        from_lua_type_i32 v = none ∧ from_lua_type_i64 v = none
          ∧ from_lua_type_f64 v = none) := by
  refine ⟨?_, ?_, by decide, fun i => rfl, rfl, by decide, fun x => rfl, fun i => rfl,
    ?_, fun b => rfl, fun s => rfl, fun m => rfl, rfl, ?_, ?_, ?_, ?_⟩
  · intro i h1 h2
    simp [from_lua_type_i32, h1, h2]
  · intro i h
    have hn : ¬(i32_min ≤ i ∧ i ≤ i32_max) := by
      simp only [i32_min, i32_max] at h ⊢
      omega
    simp [from_lua_type_i32, hn]
  · norm_num [from_lua_type_f64]
  · intro v h
    cases v with
    | Boolean b => exact absurd rfl (h b)
    | _ => rfl
  · intro v h
    cases v with
    | String s => exact absurd rfl (h s)
    | _ => rfl
  · intro v h
    cases v with
    | Table m => exact absurd rfl (h m)
    | _ => rfl
  · intro v h1 h2
    cases v with
    | Integer i => exact absurd rfl (h1 i)
    | Number x => exact absurd rfl (h2 x)
    | _ => exact ⟨rfl, rfl, rfl⟩

/-- Witness for C6 at concrete inputs: 5 fits i32, 2^31 does not, and the
mismatch rules give no value for Nil as boolean or as a numeric target. -/
theorem lua_convert_rules_witness :
    from_lua_type_i32 (LuaType.Integer 5) = some 5
  ∧ from_lua_type_i32 (LuaType.Integer 2147483648) = none
  ∧ from_lua_type_bool LuaType.Nil = none
  ∧ from_lua_type_i32 LuaType.Nil = none := by
  obtain ⟨h1, h2, -, -, -, -, -, -, -, -, -, -, -, hb, -, -, hnum⟩ := lua_convert_rules
  exact ⟨h1 5 (by decide) (by decide), h2 2147483648 (Or.inr (by decide)),
    hb LuaType.Nil (fun b h => LuaType.noConfusion h),
    (hnum LuaType.Nil (fun i h => LuaType.noConfusion h)
      (fun x h => LuaType.noConfusion h)).1⟩

/-- C10: a Number extracted as i32 or i64 is never rejected on range — the
`as` cast saturates at the target's extremes for out-of-range values and
maps NaN to 0 — while an Integer extracted as i64 is passed through with no
range check at all; only the Integer-to-i32 conversion is range-checked. -/
theorem number_to_int_saturates :
    (∀ q : ℚ, i32_max < rat_trunc q →
        from_lua_type_i32 (LuaType.Number (F64.finite q)) = some i32_max)
  ∧ (∀ q : ℚ, rat_trunc q < i32_min →
        from_lua_type_i32 (LuaType.Number (F64.finite q)) = some i32_min)
  ∧ from_lua_type_i32 (LuaType.Number F64.nan) = some 0
  ∧ from_lua_type_i32 (LuaType.Number F64.inf) = some i32_max
  ∧ from_lua_type_i32 (LuaType.Number F64.neginf) = some i32_min
  ∧ (∀ q : ℚ, i64_max < rat_trunc q →
        from_lua_type_i64 (LuaType.Number (F64.finite q)) = some i64_max)
  ∧ (∀ q : ℚ, rat_trunc q < i64_min →
        from_lua_type_i64 (LuaType.Number (F64.finite q)) = some i64_min)
  ∧ from_lua_type_i64 (LuaType.Number F64.nan) = some 0
  ∧ from_lua_type_i64 (LuaType.Number F64.inf) = some i64_max
  ∧ from_lua_type_i64 (LuaType.Number F64.neginf) = some i64_min
  ∧ (∀ i : Int, from_lua_type_i64 (LuaType.Integer i) = some i) := by
  refine ⟨?_, ?_, rfl, rfl, rfl, ?_, ?_, rfl, rfl, rfl, fun i => rfl⟩
  · intro q h
    have h2 : ¬rat_trunc q < i32_min := by
      simp only [i32_min, i32_max] at h ⊢
      omega
    simp [from_lua_type_i32, f64_as_int, h, h2]
  · intro q h
    simp [from_lua_type_i32, f64_as_int, h]
  · intro q h
    have h2 : ¬rat_trunc q < i64_min := by
      simp only [i64_min, i64_max] at h ⊢
      omega
    simp [from_lua_type_i64, f64_as_int, h, h2]
  · intro q h
    simp [from_lua_type_i64, f64_as_int, h]

/-- Witness for C10: 2^40 saturates i32 to its maximum, -2^40 to its
minimum, and 2^70 saturates i64 to its maximum. -/
theorem number_to_int_saturates_witness :
    from_lua_type_i32 (LuaType.Number (F64.finite (mkRat 1099511627776 1))) =
      some 2147483647
  ∧ from_lua_type_i32 (LuaType.Number (F64.finite (mkRat (-1099511627776) 1))) =
      some (-2147483648)
  ∧ from_lua_type_i64
        (LuaType.Number (F64.finite (mkRat 1180591620717411303424 1))) =
      some 9223372036854775807 := by
  obtain ⟨hmax, hmin, -, -, -, hmax64, -⟩ := number_to_int_saturates
  refine ⟨?_, ?_, ?_⟩
  · have := hmax (mkRat 1099511627776 1) (by decide)
    rw [this]
    decide
  · have := hmin (mkRat (-1099511627776) 1) (by decide)
    rw [this]
    decide
  · have := hmax64 (mkRat 1180591620717411303424 1) (by decide)
    rw [this]
    decide

/-- C9, counterexample: when the HTTP fetch fails, the `fetch_data` host
function does not produce a recoverable interpreter error — at the concrete
outcome of a refused connection it panics via
`.expect("Failed to fetch data")`, contradicting the claim that the failure
propagates as a script-level call error value. -/
theorem fetch_data_failure_not_lua_error :
    (fetch_data_host (fun _ => Except.error "")
        (FetchOutcome.httpErr "connection refused")).is_lua_error = false
  ∧ fetch_data_host (fun _ => Except.error "")
        (FetchOutcome.httpErr "connection refused") =
      HostCallResult.panicked "Failed to fetch data" :=
  ⟨rfl, rfl⟩

/-- C9, amended: a failure in the remote fetch (HTTP error, unreadable
response body, or JSON conversion failure) makes the `fetch_data` host
function panic — via `.expect("Failed to fetch data")`, `.unwrap()`, or
`.expect("Failed to convert JSON to Lua table")` respectively — instead of
returning a descriptive error value; only a fully successful fetch and
conversion returns a table to the script. -/
theorem fetch_data_failure_panics :
    (∀ (conv : String → Except String RValue) (e : String),
        fetch_data_host conv (FetchOutcome.httpErr e) =
          HostCallResult.panicked "Failed to fetch data")
  ∧ (∀ (conv : String → Except String RValue) (e : String),
        fetch_data_host conv (FetchOutcome.bodyErr e) = HostCallResult.panicked e)
  ∧ (∀ (conv : String → Except String RValue) (body e : String),
        conv body = Except.error e →
        fetch_data_host conv (FetchOutcome.okBody body) =
          HostCallResult.panicked "Failed to convert JSON to Lua table")
  ∧ (∀ (conv : String → Except String RValue) (body : String) (t : RValue),
        conv body = Except.ok t →
        fetch_data_host conv (FetchOutcome.okBody body) = HostCallResult.ok t) := by
  refine ⟨fun conv e => rfl, fun conv e => rfl, ?_, ?_⟩
  · intro conv body e h
    unfold fetch_data_host
    dsimp only
    rw [h]
  · intro conv body t h
    unfold fetch_data_host
    dsimp only
    rw [h]

/-- Witness for the amended C9: a conversion function that rejects every
body makes `fetch_data` panic on a successful fetch of one concrete body,
and one that accepts returns the converted table. -/
theorem fetch_data_failure_panics_witness :
    fetch_data_host (fun _ => Except.error "bad json") (FetchOutcome.okBody "x") =
      HostCallResult.panicked "Failed to convert JSON to Lua table"
  ∧ fetch_data_host (fun _ => Except.ok RValue.nil) (FetchOutcome.okBody "x") =
      HostCallResult.ok RValue.nil :=
  ⟨fetch_data_failure_panics.2.2.1 (fun _ => Except.error "bad json") "x" "bad json" rfl,
   fetch_data_failure_panics.2.2.2 (fun _ => Except.ok RValue.nil) "x" RValue.nil rfl⟩

end LuaCfg
